import Mathlib

/-!
Shallow embedding of the pygreynoise client library.

Sources embedded:
  * `src/greynoise/client.py`   — class `GreyNoise`: the HTTP requester,
    the paginated bulk driver `_recurse` / `get_noise`, the quick-check
    operations `get_noise_status` / `get_noise_status_bulk` and the
    `CODE_MESSAGES` enrichment table.
  * `src/greynoise/cli/formatter.py` — `get_location`, the per-record
    location enrichment of `ip_context_formatter` / `gnql_query_formatter`,
    the `json_formatter` / `xml_formatter` wrappers and the `FORMATTERS`
    dispatch table.

External collaborators (the `requests` HTTP backend, the `json`, `dicttoxml`
and `jinja2` libraries, and `greynoise.util.validate_ip`, which lives in a
file not present in `src/`) are abstracted as explicit parameters; the HTTP
layer is modelled by passing the server's responses in as values.
-/

namespace PyGreynoise

/-! ## Python dict model

JSON objects with string values are modelled as insertion-ordered
association lists, matching Python dict semantics: lookup finds the (unique)
binding, assignment overwrites in place or appends a new binding at the end.
-/

/-- Python `d[key]` / `d.get(key)`: first binding for `key`, if any. -/
def dictGet {α : Type} : List (String × α) → String → Option α
  | [], _ => none
  | (k, v) :: rest, key => if key = k then some v else dictGet rest key

/-- A JSON object with string fields, as returned by the quick endpoints. -/
abbrev Rec := List (String × String)

/-- Python `d[key] = val`: overwrite the binding in place, else append. -/
def dictSet : Rec → String → String → Rec
  | [], key, val => [(key, val)]
  | (k, v) :: rest, key, val =>
      if key = k then (k, val) :: rest else (k, v) :: dictSet rest key val

/-! ## client.py: the `GreyNoise` class constants -/

/-- `GreyNoise.EP_NOISE_MULTI`. -/
def EP_NOISE_MULTI : String := "noise/multi/quick"

/-- `GreyNoise.UNKNOWN_CODE_MESSAGE.format(code)`. -/
def UNKNOWN_CODE_MESSAGE (code : String) : String :=
  "Code message unknown: " ++ code

/-- `GreyNoise.CODE_MESSAGES`: the status-code → description dict. -/
def CODE_MESSAGES : Rec :=
  [ ("0x00", "IP has never been observed scanning the Internet"),
    ("0x01", "IP has been observed by the GreyNoise sensor network"),
    ("0x02", "IP has been observed scanning the GreyNoise sensor network, " ++
             "but has not completed a full connection, meaning this can be spoofed"),
    ("0x03", "IP is adjacent to another host that has been directly observed " ++
             "by the GreyNoise sensor network"),
    ("0x04", "RESERVED"),
    ("0x05", "IP is commonly spoofed in Internet-scan activity"),
    ("0x06", "IP has been observed as noise, but this host belongs to a cloud provider " ++
             "where IPs can be cycled frequently"),
    ("0x07", "IP is invalid"),
    ("0x08", "IP was classified as noise, but has not been observed " ++
             "engaging in Internet-wide scans or attacks in over 60 days") ]

/-- `CODE_MESSAGES.get(code, UNKNOWN_CODE_MESSAGE.format(code))`. -/
def codeMessage (code : String) : String :=
  match dictGet CODE_MESSAGES code with
  | some message => message
  | none => UNKNOWN_CODE_MESSAGE code

/-- Spec-side table for the amended enrichment claim: the exact message the
code attaches for each of the nine known status codes (these are the
strings of `CODE_MESSAGES`; the spec's §6 table abbreviates six of them,
while its §8 scenario 1 carries the code's exact `0x01` string), and
`"Code message unknown: <code>"` for any other code. -/
def codeMessageTable (code : String) : String :=
  if code = "0x00" then "IP has never been observed scanning the Internet"
  else if code = "0x01" then "IP has been observed by the GreyNoise sensor network"
  else if code = "0x02" then
    "IP has been observed scanning the GreyNoise sensor network, " ++
    "but has not completed a full connection, meaning this can be spoofed"
  else if code = "0x03" then
    "IP is adjacent to another host that has been directly observed " ++
    "by the GreyNoise sensor network"
  else if code = "0x04" then "RESERVED"
  else if code = "0x05" then "IP is commonly spoofed in Internet-scan activity"
  else if code = "0x06" then
    "IP has been observed as noise, but this host belongs to a cloud provider " ++
    "where IPs can be cycled frequently"
  else if code = "0x07" then "IP is invalid"
  else if code = "0x08" then
    "IP was classified as noise, but has not been observed " ++
    "engaging in Internet-wide scans or attacks in over 60 days"
  else "Code message unknown: " ++ code

/-! ## client.py: `_request`

`GreyNoise._request` composes the URL, attaches the headers, performs the
GET with the `requests` backend and gates on the HTTP status:
status codes outside Python's `range(200, 299)` — i.e. outside the
half-open interval `[200, 299)` — raise `RequestFailure(status, content)`,
otherwise the parsed JSON body is returned.  The transport is abstracted:
the response the backend would hand back is a parameter, with its parsed
JSON body of an arbitrary type `J` (its shape depends on the endpoint).
-/

/-- Exception `RequestFailure(status_code, content)` from `greynoise.exceptions`. -/
structure RequestFailure where
  status_code : Nat
  content : String
deriving DecidableEq, Repr

/-- An HTTP response as seen by `_request`: status, raw body, parsed JSON body. -/
structure HttpResponse (J : Type) where
  status_code : Nat
  content : String
  json : J
deriving DecidableEq, Repr

/-- The status gate of `GreyNoise._request`:
`if response.status_code not in range(200, 299): raise RequestFailure(...)`,
else `return response.json()`. -/
def requestGate {J : Type} (response : HttpResponse J) : Except RequestFailure J :=
  if ¬ (200 ≤ response.status_code ∧ response.status_code < 299) then
    Except.error ⟨response.status_code, response.content⟩
  else
    Except.ok response.json

/-! ## client.py: `_recurse` and `get_noise`

The bulk endpoints answer JSON objects shaped
`\x7b noise_ips: [ip...], complete: bool, ... \x7d`; one such page per request.
The HTTP layer is modelled by a trace: the list of (successfully parsed)
pages the server would produce, consumed one per `_request` call.  A result
of `none` for the whole computation models a raised exception (here: the
trace is exhausted, i.e. the transport fails); `some (r, rest)` models a
normal return of the Python value `r` with `rest` the pages not requested.
Since `_recurse` can also return Python's `None`, its returned value is an
`Option BulkResult`.
-/

/-- One page of a bulk response. -/
structure Page where
  noise_ips : List String
  complete : Bool
deriving DecidableEq, Repr

/-- The `\x7bresults: [...], result_count: n\x7d` dict built by `get_noise`. -/
structure BulkResult where
  results : List String
  result_count : Nat
deriving DecidableEq, Repr

/-- The mutable parts of the `config` dict handed to `_recurse`
(`endpoint` and `params` are carried too but do not affect the trace model). -/
structure RecurseConfig where
  results : List String
  data_key : String
deriving DecidableEq, Repr

/-- `GreyNoise._recurse(config, breaker)`, verbatim:

    results = None
    if breaker: return results
    response = self._request(endpoint, params)
    if not response["complete"]:
        config["results"].append(config["data_key"])
        self._recurse(config, response["complete"])
    (falls through, returning None)

Note the source appends the literal `data_key` string (not the page's
data), discards the recursive call's return value, and returns the local
`results`, which is always `None`. -/
def recurse (trace : List Page) (config : RecurseConfig) (breaker : Bool) :
    Option (Option BulkResult × List Page) :=
  if breaker then some (none, trace)
  else
    match trace with
    | [] => none
    | response :: rest =>
        if response.complete = false then
          match recurse rest
              { config with results := config.results ++ [config.data_key] }
              response.complete with
          | none => none
          | some (_, rest') => some (none, rest')
        else some (none, rest)

/-- `GreyNoise.get_noise(date=None, recurse=...)` over a page trace.
The `date` argument only selects the endpoint string (after date
validation) and does not affect the page-level semantics, so it is not
modelled.  The recursive branch returns whatever `_recurse` returns; the
non-recursive branch performs one request and builds
`results = list(set(response["noise_ips"]))`,
`result_count = len(results)` — `list(set(...))` is modelled by
`List.dedup` (the set's iteration order is unspecified in Python, and the
spec promises none). -/
def get_noise (trace : List Page) (recurse_flag : Bool) :
    Option (Option BulkResult × List Page) :=
  if recurse_flag then
    recurse trace { results := [], data_key := "noise_ips" } false
  else
    match trace with
    | [] => none
    | response :: rest =>
        some (some { results := response.noise_ips.dedup,
                     result_count := response.noise_ips.dedup.length }, rest)

/-! ## client.py: quick-check operations and enrichment

`greynoise.util.validate_ip` is not in `src/`; per the spec (§4.1) it is a
predicate on strings (strict mode raising instead of returning false), so
it is passed in as a `String → Bool` parameter.  The server's parsed JSON
responses are likewise passed in as values.
-/

/-- The enrichment snippet shared by `get_noise_status` and
`get_noise_status_bulk`:

    code = result["code"]
    result["code_message"] = self.CODE_MESSAGES.get(
        code, self.UNKNOWN_CODE_MESSAGE.format(code))

`none` models the `KeyError` raised when the record has no `code` field. -/
def enrich (result : Rec) : Option Rec :=
  match dictGet result "code" with
  | none => none
  | some code => some (dictSet result "code_message" (codeMessage code))

/-- `GreyNoise.get_noise_status(ip_address)`: strict IP validation (a
raised `ValidationError` is `none`), then one request — whose response is
the parameter — then enrichment of the single result. -/
def get_noise_status (validate_ip : String → Bool) (ip_address : String)
    (response : Rec) : Option Rec :=
  if validate_ip ip_address then enrich response else none

/-- The `for result in results:` enrichment loop of `get_noise_status_bulk`,
applied to each record in order; `none` models the `KeyError` raised when
some record has no `code` field. -/
def enrichAll : List Rec → Option (List Rec)
  | [] => some []
  | result :: rest =>
      match enrich result, enrichAll rest with
      | some r, some rs => some (r :: rs)
      | _, _ => none

/-- `GreyNoise.get_noise_status_bulk(ip_addresses)`: filter the input by
non-strict IP validation, send `\x7bips: filtered\x7d` as the JSON body of one
request, and enrich each record of the returned list in place.  The server
is a function from the posted list to its response; the first component of
the result is the `ips` list actually sent. -/
def get_noise_status_bulk (validate_ip : String → Bool)
    (ip_addresses : List String) (server : List String → List Rec) :
    List String × Option (List Rec) :=
  let filtered := ip_addresses.filter (fun ip_address => validate_ip ip_address)
  let results := server filtered
  (filtered, enrichAll results)

/-! ## cli/formatter.py: location enrichment

`get_location` reads the three geolocation fields of an ip-context
`metadata` dict and joins the non-empty segments with single spaces.
Metadata dicts are modelled as a structure over the three fields the code
reads, the `location` field it may write, and an opaque remainder `extra`
(the server's other metadata fields, passed through untouched).
-/

/-- Python `sep.join(segments)`. -/
def join_with (sep : String) : List String → String
  | [] => ""
  | [segment] => segment
  | segment :: rest => segment ++ sep ++ join_with sep rest

/-- An ip-context `metadata` dict. -/
structure Metadata where
  city : String
  country : String
  country_code : String
  location : Option String
  extra : List (String × String)
deriving DecidableEq, Repr

/-- `get_location(metadata)` from `cli/formatter.py`:

    location = []
    if city: location.append("\x7b\x7d,".format(city))
    if country: location.append(country)
    if country_code: location.append("(\x7b\x7d)".format(country_code))
    return " ".join(location)

Python truthiness of a string is non-emptiness. -/
def get_location (metadata : Metadata) : String :=
  let city := metadata.city
  let country := metadata.country
  let country_code := metadata.country_code
  let location :=
    (if city ≠ "" then [city ++ ","] else []) ++
    (if country ≠ "" then [country] else []) ++
    (if country_code ≠ "" then ["(" ++ country_code ++ ")"] else [])
  join_with " " location

/-- An ip-context record: `seen` flag, `metadata` dict, other fields opaque. -/
structure IpContext where
  seen : Bool
  metadata : Metadata
  extra : List (String × String)
deriving DecidableEq, Repr

/-- The snippet both `ip_context_formatter` and `gnql_query_formatter`
run on each ip-context record before templating:

    if ip_context["seen"]:
        metadata = ip_context["metadata"]
        metadata["location"] = get_location(metadata)
-/
def add_location_if_seen (ip_context : IpContext) : IpContext :=
  if ip_context.seen then
    { ip_context with
        metadata := { ip_context.metadata with
                        location := some (get_location ip_context.metadata) } }
  else ip_context

/-- The data transformation of `ip_context_formatter` (the subsequent
jinja2 templating and ansi-markup substitution are external and modelled
as a render parameter where needed). -/
def ip_context_prepare (ip_context : IpContext) : IpContext :=
  add_location_if_seen ip_context

/-- A GNQL query result: optional `data` list of ip-context records,
other fields opaque. -/
structure GnqlResult where
  data : Option (List IpContext)
  extra : List (String × String)
deriving DecidableEq, Repr

/-- The data transformation of `gnql_query_formatter`:

    if "data" in gnql:
        for ip_context in gnql["data"]:
            if ip_context["seen"]:
                metadata = ip_context["metadata"]
                metadata["location"] = get_location(metadata)
-/
def gnql_query_prepare (gnql : GnqlResult) : GnqlResult :=
  match gnql.data with
  | none => gnql
  | some entries => { gnql with data := some (entries.map add_location_if_seen) }

/-! ## cli/formatter.py: json / xml formatters

`json_formatter(result, _verbose)` calls `json.dumps(result, indent=4,
sort_keys=True)`; `xml_formatter(result, _verbose)` calls
`parseString(dicttoxml(result)).toprettyxml()`.  The serializers are
external libraries, abstracted as parameters over an arbitrary result
type `J`; both formatters ignore their `_verbose` argument.
-/

/-- `json_formatter(result, _verbose)`, with `json.dumps(·, indent=4,
sort_keys=True)` abstracted as `json_dumps`. -/
def json_formatter {J : Type} (json_dumps : J → String) (result : J)
    ( _verbose : Bool) : String :=
  json_dumps result

/-- `xml_formatter(result, _verbose)`, with `dicttoxml` and
`parseString(·).toprettyxml()` abstracted. -/
def xml_formatter {J : Type} (dicttoxml : J → String)
    (toprettyxml : String → String) (result : J) ( _verbose : Bool) : String :=
  toprettyxml (dicttoxml result)

/-! ## cli/formatter.py: the `FORMATTERS` dispatch table -/

/-- Tags naming the renderer functions installed in `FORMATTERS`. -/
inductive Formatter where
  | json_fmt
  | xml_fmt
  | ip_context_fmt
  | ip_quick_check_fmt
  | ip_multi_quick_check_fmt
  | gnql_query_fmt
  | gnql_stats_fmt
  | actors_fmt
deriving DecidableEq, Repr

/-- The inner `txt` dict of `FORMATTERS`. -/
def TXT_FORMATTERS : List (String × Formatter) :=
  [ ("ip.context", Formatter.ip_context_fmt),
    ("ip.quick_check", Formatter.ip_quick_check_fmt),
    ("ip.multi_quick_check", Formatter.ip_multi_quick_check_fmt),
    ("gnql.query", Formatter.gnql_query_fmt),
    ("gnql.stats", Formatter.gnql_stats_fmt),
    ("actors", Formatter.actors_fmt) ]

/-- Lookup into the nested `FORMATTERS` dict: for `json` and `xml` the
entry is the renderer itself (kind ignored), for `txt` the entry is the
kind-indexed inner dict. -/
def FORMATTERS_lookup (format kind : String) : Option Formatter :=
  if format = "json" then some Formatter.json_fmt
  else if format = "xml" then some Formatter.xml_fmt
  else if format = "txt" then dictGet TXT_FORMATTERS kind
  else none

/-- The dispatch error for an unrecognized `(format, kind)` pair. -/
structure DispatchError where
  format : String
  kind : String
deriving DecidableEq, Repr

/-- Modelled from the spec: the formatter dispatch (§4.6) that resolves
`(format, kind)` through the `FORMATTERS` table and fails with a dispatch
error on an unrecognized pair.  The CLI caller that indexes `FORMATTERS`
is not under `src/`; only the table itself is. -/
def dispatch (format kind : String) : Except DispatchError Formatter :=
  match FORMATTERS_lookup format kind with
  | some formatter => Except.ok formatter
  | none => Except.error ⟨format, kind⟩

/-! ## Helper lemmas -/

theorem dictGet_dictSet_self (d : Rec) (key val : String) :
    dictGet (dictSet d key val) key = some val := by
  induction d with
  | nil => simp [dictGet, dictSet]
  | cons kv rest ih =>
      obtain ⟨k, v⟩ := kv
      by_cases h : key = k
      · simp [dictGet, dictSet, h]
      · simp [dictGet, dictSet, h, ih]

theorem dictGet_dictSet_ne (d : Rec) (key key' val : String) (h : key' ≠ key) :
    dictGet (dictSet d key val) key' = dictGet d key' := by
  induction d with
  | nil => simp [dictGet, dictSet, h]
  | cons kv rest ih =>
      obtain ⟨k, v⟩ := kv
      by_cases hk : key = k
      · subst hk
        simp [dictGet, dictSet, h]
      · by_cases hk' : key' = k
        · simp [dictGet, dictSet, hk, hk']
        · simp [dictGet, dictSet, hk, hk', ih]

theorem dictGet_eq_none_of_not_mem_keys {α : Type} (d : List (String × α))
    (key : String) (h : key ∉ d.map Prod.fst) : dictGet d key = none := by
  induction d with
  | nil => rfl
  | cons kv rest ih =>
      obtain ⟨k, v⟩ := kv
      simp only [List.map_cons, List.mem_cons] at h
      push_neg at h
      simp [dictGet, h.1, ih h.2]

theorem enrich_spec (result enriched : Rec) (h : enrich result = some enriched) :
    ∃ code, dictGet result "code" = some code ∧
      enriched = dictSet result "code_message" (codeMessage code) := by
  unfold enrich at h
  cases hc : dictGet result "code" with
  | none => rw [hc] at h; cases h
  | some code =>
      rw [hc] at h
      exact ⟨code, rfl, by cases h; rfl⟩

theorem enrichAll_mem (results out : List Rec) (h : enrichAll results = some out) :
    ∀ r ∈ out, ∃ r0 ∈ results, enrich r0 = some r := by
  induction results generalizing out with
  | nil =>
      cases h
      intro r hr
      cases hr
  | cons result rest ih =>
      unfold enrichAll at h
      cases he : enrich result with
      | none => rw [he] at h; cases h
      | some r1 =>
          cases hrest : enrichAll rest with
          | none => rw [he, hrest] at h; cases h
          | some rs =>
              rw [he, hrest] at h
              cases h
              intro r hr
              rcases List.mem_cons.mp hr with h1 | h2
              · exact ⟨result, List.mem_cons_self .., h1 ▸ he⟩
              · obtain ⟨r0, hr0, hr0e⟩ := ih rs hrest r h2
                exact ⟨r0, List.mem_cons_of_mem _ hr0, hr0e⟩

theorem recurse_value_none (trace : List Page) :
    ∀ (config : RecurseConfig) (breaker : Bool)
      (result : Option BulkResult × List Page),
      recurse trace config breaker = some result → result.1 = none := by
  induction trace with
  | nil =>
      intro config breaker result h
      cases breaker with
      | true =>
          have hr : recurse [] config true = some (none, []) := rfl
          rw [hr] at h
          cases h
          rfl
      | false =>
          have hr : recurse [] config false = none := rfl
          rw [hr] at h
          cases h
  | cons response rest ih =>
      intro config breaker result h
      cases breaker with
      | true =>
          have hr : recurse (response :: rest) config true =
              some (none, response :: rest) := rfl
          rw [hr] at h
          cases h
          rfl
      | false =>
          have hr : recurse (response :: rest) config false =
              if response.complete = false then
                match recurse rest
                    { config with results := config.results ++ [config.data_key] }
                    response.complete with
                | none => none
                | some (_, rest') => some (none, rest')
              else some (none, rest) := rfl
          rw [hr] at h
          by_cases hc : response.complete = false
          · rw [if_pos hc] at h
            cases hrec : recurse rest
                { config with results := config.results ++ [config.data_key] }
                response.complete with
            | none => rw [hrec] at h; cases h
            | some p =>
                obtain ⟨p1, p2⟩ := p
                rw [hrec] at h
                cases h
                rfl
          · rw [if_neg hc] at h
            cases h
            rfl

theorem codeMessage_eq_table (code : String) : codeMessage code = codeMessageTable code := by
  by_cases h0 : code = "0x00"
  · subst h0; rfl
  by_cases h1 : code = "0x01"
  · subst h1; rfl
  by_cases h2 : code = "0x02"
  · subst h2; rfl
  by_cases h3 : code = "0x03"
  · subst h3; rfl
  by_cases h4 : code = "0x04"
  · subst h4; rfl
  by_cases h5 : code = "0x05"
  · subst h5; rfl
  by_cases h6 : code = "0x06"
  · subst h6; rfl
  by_cases h7 : code = "0x07"
  · subst h7; rfl
  by_cases h8 : code = "0x08"
  · subst h8; rfl
  simp [codeMessage, codeMessageTable, CODE_MESSAGES, dictGet, UNKNOWN_CODE_MESSAGE,
    h0, h1, h2, h3, h4, h5, h6, h7, h8]

theorem join_with_nil (sep : String) : join_with sep [] = "" := rfl

theorem join_with_single (sep segment : String) : join_with sep [segment] = segment := rfl

theorem join_with_pair (sep a b : String) : join_with sep [a, b] = a ++ sep ++ b := rfl

theorem join_with_triple (sep a b c : String) :
    join_with sep [a, b, c] = a ++ sep ++ (b ++ sep ++ c) := rfl

theorem comma_space_merge (x : String) : "," ++ (" " ++ x) = ", " ++ x := by
  rw [← String.append_assoc]
  congr 1

theorem space_paren_merge (x : String) : " " ++ ("(" ++ x) = " (" ++ x := by
  rw [← String.append_assoc]
  congr 1

theorem comma_space_paren_merge (x : String) : ", " ++ ("(" ++ x) = ", (" ++ x := by
  rw [← String.append_assoc]
  congr 1

theorem comma_sparen_merge (x : String) : "," ++ (" (" ++ x) = ", (" ++ x := by
  rw [← String.append_assoc]
  congr 1

theorem add_location_if_seen_of_seen (c : IpContext) (h : c.seen = true) :
    add_location_if_seen c =
      { seen := c.seen,
        metadata := { city := c.metadata.city, country := c.metadata.country,
                      country_code := c.metadata.country_code,
                      location := some (get_location c.metadata),
                      extra := c.metadata.extra },
        extra := c.extra } := by
  obtain ⟨seen, ⟨city, country, country_code, location, mextra⟩, extra⟩ := c
  simp at h
  subst h
  rfl

theorem add_location_if_seen_of_not_seen (c : IpContext) (h : c.seen = false) :
    add_location_if_seen c = c := by
  unfold add_location_if_seen
  rw [h]
  rfl

theorem forall₂_map_self {α : Type} (f : α → α) (R : α → α → Prop)
    (h : ∀ a, R a (f a)) : ∀ l : List α, List.Forall₂ R l (l.map f)
  | [] => List.Forall₂.nil
  | a :: l => List.Forall₂.cons (h a) (forall₂_map_self f R h l)

/-! ## Claim theorems -/

/-- C1: the claim says `get_noise(recurse=true)` accumulates each page's
`noise_ips` and, on `complete == true`, returns the deduplicated record.
The source's `_recurse` does neither — it appends the literal `data_key`
string, discards the recursive call's value and always returns `None`.
Evaluated on a one-page trace (`noise_ips = ["1.2.3.4"]`, `complete=true`)
and on a two-page trace, the recursive `get_noise` returns `None` (modelled
`none`) instead of the claimed record. -/
theorem C1_recursive_driver_returns_no_record :
    get_noise [⟨["1.2.3.4"], true⟩] true = some (none, []) ∧
    get_noise [⟨["1.2.3.4"], false⟩, ⟨["5.6.7.8"], true⟩] true = some (none, []) := by
  constructor <;> rfl

/-- C4: `_request` returns the parsed JSON body exactly on HTTP status in
`[200, 299)` (Python's `range(200, 299)`), and on any other status raises
`RequestFailure` carrying the status and the raw response body. -/
theorem C4_request_status_gate {J : Type} (response : HttpResponse J) :
    (200 ≤ response.status_code ∧ response.status_code < 299 →
        requestGate response = Except.ok response.json) ∧
    (¬ (200 ≤ response.status_code ∧ response.status_code < 299) →
        requestGate response = Except.error
          ⟨response.status_code, response.content⟩) := by
  constructor <;> intro h <;> simp [requestGate, h]

/-- Witness for C4: status 204 returns the body, status 299 (outside the
half-open interval) fails with the status and raw body. -/
theorem C4_request_status_gate_witness :
    requestGate (HttpResponse.mk 204 "raw" (0 : Nat)) = Except.ok 0 ∧
    requestGate (HttpResponse.mk 299 "server error" (0 : Nat)) =
      Except.error ⟨299, "server error"⟩ :=
  ⟨(C4_request_status_gate ⟨204, "raw", 0⟩).1 (by decide),
   (C4_request_status_gate ⟨299, "server error", 0⟩).2 (by decide)⟩

/-- C5: the non-recursive `get_noise` consumes exactly one page of the
trace and returns a record whose `results` has exactly the elements of the
page's `noise_ips` with no duplicates, and whose `result_count` is the
length of that deduplicated list. -/
theorem C5_nonrecursive_single_request (response : Page) (rest : List Page) :
    ∃ r : BulkResult,
      get_noise (response :: rest) false = some (some r, rest) ∧
      (∀ ip, ip ∈ r.results ↔ ip ∈ response.noise_ips) ∧
      r.results.Nodup ∧
      r.result_count = r.results.length := by
  refine ⟨{ results := response.noise_ips.dedup,
            result_count := response.noise_ips.dedup.length }, rfl, ?_, ?_, rfl⟩
  · intro ip
    exact List.mem_dedup
  · exact List.nodup_dedup response.noise_ips

/-- C6: every `BulkResult` that `get_noise` returns — on either path —
has `result_count` equal to the length of `results` and no duplicate in
`results`.  (The recursive path returns Python `None`, never a
`BulkResult`, so only the non-recursive path contributes.) -/
theorem C6_bulk_result_invariant (trace : List Page) (recurse_flag : Bool)
    (r : BulkResult) (rest : List Page)
    (h : get_noise trace recurse_flag = some (some r, rest)) :
    r.result_count = r.results.length ∧ r.results.Nodup := by
  cases recurse_flag with
  | true =>
      exfalso
      have hr : get_noise trace true =
          recurse trace { results := [], data_key := "noise_ips" } false := rfl
      rw [hr] at h
      have := recurse_value_none trace _ false _ h
      simp at this
  | false =>
      cases trace with
      | nil =>
          have hr : get_noise [] false = none := rfl
          rw [hr] at h
          cases h
      | cons response rest' =>
          have hr : get_noise (response :: rest') false =
              some (some { results := response.noise_ips.dedup,
                           result_count := response.noise_ips.dedup.length },
                    rest') := rfl
          rw [hr] at h
          cases h
          exact ⟨rfl, List.nodup_dedup response.noise_ips⟩

/-- Witness for C6: a concrete non-recursive call returning a record with
two distinct IPs and `result_count = 2`. -/
theorem C6_bulk_result_invariant_witness :
    (BulkResult.mk ["1.1.1.1", "2.2.2.2"] 2).result_count =
      (BulkResult.mk ["1.1.1.1", "2.2.2.2"] 2).results.length ∧
    (BulkResult.mk ["1.1.1.1", "2.2.2.2"] 2).results.Nodup :=
  C6_bulk_result_invariant [⟨["2.2.2.2", "1.1.1.1", "2.2.2.2"], true⟩] false
    ⟨["1.1.1.1", "2.2.2.2"], 2⟩ [] (by decide)

/-- C10: `json_formatter` and `xml_formatter` ignore their `verbose`
argument: for any result and any two verbose flags the outputs coincide
(for every choice of the external serializers). -/
theorem C10_json_xml_verbose_independent {J : Type} (json_dumps : J → String)
    (dicttoxml : J → String) (toprettyxml : String → String) (result : J)
    (v1 v2 : Bool) :
    json_formatter json_dumps result v1 = json_formatter json_dumps result v2 ∧
    xml_formatter dicttoxml toprettyxml result v1 =
      xml_formatter dicttoxml toprettyxml result v2 :=
  ⟨rfl, rfl⟩

/-- C2 counterexample: the claim states enrichment attaches the §6 table
string, for `0x01` exactly "IP has been observed by the sensor network".
On the concrete response `\x7bcode: 0x01\x7d`, `get_noise_status` attaches
"IP has been observed by the GreyNoise sensor network", which differs. -/
theorem C2_section6_message_counterexample :
    get_noise_status (fun _ => true) "8.8.8.8" [("code", "0x01")] =
      some [("code", "0x01"),
            ("code_message", "IP has been observed by the GreyNoise sensor network")] ∧
    "IP has been observed by the GreyNoise sensor network" ≠
      "IP has been observed by the sensor network" := by
  constructor
  · rfl
  · decide

/-- C2 amended: enrichment (by `get_noise_status` on its single result and
by `get_noise_status_bulk` on each element) sets `code_message` to the
fixed description of `codeMessageTable` — the code's `CODE_MESSAGES`
strings for the nine known codes (e.g. for `0x01` exactly
"IP has been observed by the GreyNoise sensor network"), and
"Code message unknown: <code>" for any code outside that set. -/
theorem C2_enrichment_amended :
    (∀ code : String, codeMessage code = codeMessageTable code) ∧
    (∀ (validate_ip : String → Bool) (ip_address : String)
        (response enriched : Rec),
        get_noise_status validate_ip ip_address response = some enriched →
        ∃ code, dictGet response "code" = some code ∧
          dictGet enriched "code_message" = some (codeMessageTable code)) ∧
    (∀ (validate_ip : String → Bool) (ip_addresses : List String)
        (server : List String → List Rec) (out : List Rec),
        (get_noise_status_bulk validate_ip ip_addresses server).2 = some out →
        ∀ enriched ∈ out, ∃ code,
          dictGet enriched "code" = some code ∧
          dictGet enriched "code_message" = some (codeMessageTable code)) := by
  refine ⟨codeMessage_eq_table, ?_, ?_⟩
  · intro validate_ip ip_address response enriched h
    unfold get_noise_status at h
    by_cases hv : validate_ip ip_address = true
    · rw [if_pos hv] at h
      obtain ⟨code, hcode, henr⟩ := enrich_spec response enriched h
      refine ⟨code, hcode, ?_⟩
      rw [henr, dictGet_dictSet_self, codeMessage_eq_table]
    · rw [if_neg hv] at h
      cases h
  · intro validate_ip ip_addresses server out h enriched hmem
    unfold get_noise_status_bulk at h
    simp only at h
    obtain ⟨r0, _, hr0⟩ := enrichAll_mem _ out h enriched hmem
    obtain ⟨code, hcode, henr⟩ := enrich_spec r0 enriched hr0
    refine ⟨code, ?_, ?_⟩
    · rw [henr, dictGet_dictSet_ne _ _ _ _ (by decide), hcode]
    · rw [henr, dictGet_dictSet_self, codeMessage_eq_table]

/-- Witness for C2 amended: a single lookup with known code `0x07` and a
bulk lookup whose server answers an unknown code `0xFF`. -/
theorem C2_enrichment_amended_witness :
    (∃ code, dictGet [("code", "0x07")] "code" = some code ∧
      dictGet [("code", "0x07"), ("code_message", "IP is invalid")]
        "code_message" = some (codeMessageTable code)) ∧
    (∃ code,
      dictGet [("code", "0xFF"), ("code_message", "Code message unknown: 0xFF")]
        "code" = some code ∧
      dictGet [("code", "0xFF"), ("code_message", "Code message unknown: 0xFF")]
        "code_message" = some (codeMessageTable code)) :=
  ⟨C2_enrichment_amended.2.1 (fun _ => true) "8.8.8.8" [("code", "0x07")]
      [("code", "0x07"), ("code_message", "IP is invalid")] (by rfl),
   C2_enrichment_amended.2.2 (fun _ => true) ["8.8.8.8"]
      (fun _ => [[("code", "0xFF")]])
      [[("code", "0xFF"), ("code_message", "Code message unknown: 0xFF")]]
      (by rfl)
      [("code", "0xFF"), ("code_message", "Code message unknown: 0xFF")]
      (by decide)⟩

/-- C3: the `ips` list `get_noise_status_bulk` sends to the server is the
input list with exactly the entries failing non-strict IP validation
removed: it is a subsequence of the input (so relative order is
preserved), and each entry occurs in it exactly as often as it occurs in
the input if it validates, never otherwise. -/
theorem C3_bulk_sent_list (validate_ip : String → Bool)
    (ip_addresses : List String) (server : List String → List Rec) :
    ((get_noise_status_bulk validate_ip ip_addresses server).1.Sublist
        ip_addresses) ∧
    (∀ ip, ip ∈ (get_noise_status_bulk validate_ip ip_addresses server).1 ↔
        ip ∈ ip_addresses ∧ validate_ip ip = true) ∧
    (∀ ip, (get_noise_status_bulk validate_ip ip_addresses server).1.count ip =
        if validate_ip ip then ip_addresses.count ip else 0) := by
  refine ⟨List.filter_sublist ip_addresses, ?_, ?_⟩
  · intro ip
    simp [get_noise_status_bulk, List.mem_filter]
  · intro ip
    by_cases hv : validate_ip ip = true
    · rw [if_pos hv]
      exact List.count_filter hv
    · rw [if_neg (by simpa using hv)]
      simp only [get_noise_status_bulk, List.count_eq_zero]
      intro hmem
      exact hv (List.of_mem_filter hmem)

/-- C7: the `txt` table of `FORMATTERS` has renderers exactly for the six
kinds `ip.context`, `ip.quick_check`, `ip.multi_quick_check`,
`gnql.query`, `gnql.stats`, `actors`; dispatching `txt` with any other
kind yields a dispatch error, not a renderer. -/
theorem C7_txt_dispatch (kind : String) :
    ((dictGet TXT_FORMATTERS kind).isSome = true ↔
        kind ∈ ["ip.context", "ip.quick_check", "ip.multi_quick_check",
                "gnql.query", "gnql.stats", "actors"]) ∧
    (kind ∉ ["ip.context", "ip.quick_check", "ip.multi_quick_check",
             "gnql.query", "gnql.stats", "actors"] →
        dispatch "txt" kind = Except.error ⟨"txt", kind⟩) := by
  constructor
  · simp only [TXT_FORMATTERS, dictGet, List.mem_cons]
    split_ifs <;> simp_all
  · intro h
    have hnone : dictGet TXT_FORMATTERS kind = none := by
      apply dictGet_eq_none_of_not_mem_keys
      simpa [TXT_FORMATTERS] using h
    unfold dispatch FORMATTERS_lookup
    rw [if_neg (by decide), if_neg (by decide), if_pos rfl, hnone]

/-- Witness for C7: `unknown.kind` is outside the six-kind table and
dispatches to an error. -/
theorem C7_txt_dispatch_witness :
    dispatch "txt" "unknown.kind" = Except.error ⟨"txt", "unknown.kind"⟩ :=
  (C7_txt_dispatch "unknown.kind").2 (by decide)

/-- C8: `ip_context_formatter` (and `gnql_query_formatter`, for every
entry of the `data` list) adds a `location` field to `metadata` before
templating exactly when the record's `seen` is true; when `seen` is false
the record — its metadata included — is left completely unchanged. -/
theorem C8_location_frame :
    (∀ c : IpContext, c.seen = true →
        ip_context_prepare c =
          { seen := c.seen,
            metadata := { city := c.metadata.city,
                          country := c.metadata.country,
                          country_code := c.metadata.country_code,
                          location := some (get_location c.metadata),
                          extra := c.metadata.extra },
            extra := c.extra }) ∧
    (∀ c : IpContext, c.seen = false → ip_context_prepare c = c) ∧
    (∀ (g : GnqlResult) (entries : List IpContext), g.data = some entries →
        ∃ entries',
          (gnql_query_prepare g).data = some entries' ∧
          (gnql_query_prepare g).extra = g.extra ∧
          List.Forall₂ (fun e e' : IpContext =>
            (e.seen = true →
                e' = { seen := e.seen,
                       metadata := { city := e.metadata.city,
                                     country := e.metadata.country,
                                     country_code := e.metadata.country_code,
                                     location := some (get_location e.metadata),
                                     extra := e.metadata.extra },
                       extra := e.extra }) ∧
            (e.seen = false → e' = e)) entries entries') ∧
    (∀ g : GnqlResult, g.data = none → gnql_query_prepare g = g) := by
  refine ⟨?_, ?_, ?_, ?_⟩
  · intro c h
    exact add_location_if_seen_of_seen c h
  · intro c h
    exact add_location_if_seen_of_not_seen c h
  · intro g entries h
    have hg : gnql_query_prepare g =
        { g with data := some (entries.map add_location_if_seen) } := by
      unfold gnql_query_prepare
      rw [h]
    refine ⟨entries.map add_location_if_seen, by rw [hg], by rw [hg], ?_⟩
    exact forall₂_map_self _ _
      (fun e => ⟨add_location_if_seen_of_seen e, add_location_if_seen_of_not_seen e⟩)
      entries
  · intro g h
    unfold gnql_query_prepare
    rw [h]

/-- Witness for C8: a seen record gets its derived location, an unseen
record is untouched, and a GNQL result with no `data` key is untouched. -/
theorem C8_location_frame_witness :
    ip_context_prepare ⟨true, ⟨"Paris", "France", "FR", none, []⟩, []⟩ =
      ⟨true, ⟨"Paris", "France", "FR",
              some (get_location ⟨"Paris", "France", "FR", none, []⟩), []⟩, []⟩ ∧
    ip_context_prepare ⟨false, ⟨"Kyiv", "Ukraine", "UA", none, []⟩, []⟩ =
      ⟨false, ⟨"Kyiv", "Ukraine", "UA", none, []⟩, []⟩ ∧
    gnql_query_prepare ⟨none, [("count", "0")]⟩ = ⟨none, [("count", "0")]⟩ :=
  ⟨C8_location_frame.1 ⟨true, ⟨"Paris", "France", "FR", none, []⟩, []⟩ rfl,
   C8_location_frame.2.1 ⟨false, ⟨"Kyiv", "Ukraine", "UA", none, []⟩, []⟩ rfl,
   C8_location_frame.2.2.2 ⟨none, [("count", "0")]⟩ rfl⟩

/-- C9: `get_location` joins with single spaces the segments
`"<city>,"`, `"<country>"`, `"(<country_code>)"`, each omitted when its
source field is empty — spelled out over all eight emptiness cases — and
in particular evaluates to `""`, `"Paris, France (FR)"` and
`"France (FR)"` on the spec's three examples. -/
theorem C9_get_location_segments :
    (∀ metadata : Metadata,
      get_location metadata =
        if metadata.city ≠ "" then
          if metadata.country ≠ "" then
            if metadata.country_code ≠ "" then
              metadata.city ++ ", " ++ metadata.country ++ " (" ++
                metadata.country_code ++ ")"
            else metadata.city ++ ", " ++ metadata.country
          else
            if metadata.country_code ≠ "" then
              metadata.city ++ ", (" ++ metadata.country_code ++ ")"
            else metadata.city ++ ","
        else
          if metadata.country ≠ "" then
            if metadata.country_code ≠ "" then
              metadata.country ++ " (" ++ metadata.country_code ++ ")"
            else metadata.country
          else
            if metadata.country_code ≠ "" then
              "(" ++ metadata.country_code ++ ")"
            else "") ∧
    get_location ⟨"", "", "", none, []⟩ = "" ∧
    get_location ⟨"Paris", "France", "FR", none, []⟩ = "Paris, France (FR)" ∧
    get_location ⟨"", "France", "FR", none, []⟩ = "France (FR)" := by
  refine ⟨?_, by rfl, by rfl, by rfl⟩
  intro metadata
  simp only [get_location]
  split_ifs <;>
    simp only [List.cons_append, List.nil_append, List.append_nil,
      join_with_nil, join_with_single, join_with_pair, join_with_triple,
      String.append_assoc, comma_space_merge, space_paren_merge,
      comma_space_paren_merge, comma_sparen_merge]

end PyGreynoise
